import Mathlib

/-!
Formal model of the Configuration & Client Resolver of the langchain-lab
repository, embedded from `src/config/settings.py`.

The module reads process environment variables into a class-level settings
snapshot (`Settings`), validates API-key presence (`Settings.validate_api_keys`),
resolves a provider token and constructs a chat-model client (`get_llm`),
and probes connectivity (`test_llm_connection`).  Module import additionally
runs `Settings.setup_logging`.

Python `Optional[str]` values are modelled as `Option String`; Python
truthiness of such a value (`bool(s)`) is `truthy`.  Exceptions are modelled
as an `Except PyExc` result; each `raise ValueError(...)` site of the source
becomes an `Except.error (PyExc.valueError msg)` with the exact message string
of the source.
-/

/-- Exceptions raised by the configuration module.  The source raises
`ValueError` with a message at every explicit raise site; `getattr` on a
missing module attribute raises `AttributeError`. -/
inductive PyExc where
  | valueError (msg : String)
  | attributeError (msg : String)
deriving DecidableEq, Repr

/-- Python truthiness of an `Optional[str]`: `None` and the empty string are
falsy, every other string is truthy.  This is the meaning of
`bool(cls.OPENAI_API_KEY)`, `if not Settings.OPENAI_API_KEY`, etc. -/
def truthy : Option String → Bool
  | none => false
  | some v => !(v == "")

/-- Python `str.lower()` (character-wise lower-casing; the provider tokens in
play are ASCII). -/
def strLower (s : String) : String :=
  ⟨s.data.map Char.toLower⟩

/-- Python `str.upper()` (character-wise upper-casing; the log-level tokens in
play are ASCII). -/
def strUpper (s : String) : String :=
  ⟨s.data.map Char.toUpper⟩

/-- The first `n` characters of a string. -/
def strTakeChars (s : String) (n : Nat) : String :=
  ⟨s.data.take n⟩

/-- Boolean success test for an `Except` result. -/
def isOkE {α : Type} : Except PyExc α → Bool
  | .ok _ => true
  | .error _ => false

/-- Process environment contents: an association list from variable names to
values (keys are unique in a real environment; lookup takes the first match). -/
abbrev Env := List (String × String)

/-- Python `os.getenv(key)`: the variable value, or `None` when unset. -/
def getenv (env : Env) (key : String) : Option String :=
  (List.find? (fun p => p.1 == key) env).map (fun p => p.2)

/-- Python `os.getenv(key, default)`: the variable value, or `default` when
the variable is unset (an empty-string value is returned as is). -/
def getenvD (env : Env) (key dflt : String) : String :=
  (getenv env key).getD dflt

/-- The class-level configuration snapshot of `class Settings`
(`src/config/settings.py`, lines 16-34): API keys, tracing configuration,
model defaults and application settings. -/
structure Settings where
  OPENAI_API_KEY : Option String
  ANTHROPIC_API_KEY : Option String
  LANGCHAIN_API_KEY : Option String
  LANGCHAIN_TRACING_V2 : Bool
  LANGCHAIN_PROJECT : String
  DEFAULT_OPENAI_MODEL : String
  DEFAULT_ANTHROPIC_MODEL : String
  DEBUG : Bool
  LOG_LEVEL : String
deriving DecidableEq, Repr

/-- Evaluation of the `Settings` class body over a process environment
(`src/config/settings.py`, lines 16-34): every attribute is an `os.getenv`
read, with the documented defaults; no read can fail. -/
def Settings.load (env : Env) : Settings :=
  { OPENAI_API_KEY := getenv env "OPENAI_API_KEY"
    ANTHROPIC_API_KEY := getenv env "ANTHROPIC_API_KEY"
    LANGCHAIN_API_KEY := getenv env "LANGCHAIN_API_KEY"
    LANGCHAIN_TRACING_V2 := strLower (getenvD env "LANGCHAIN_TRACING_V2" "false") == "true"
    LANGCHAIN_PROJECT := getenvD env "LANGCHAIN_PROJECT" "langchain-lab"
    DEFAULT_OPENAI_MODEL := getenvD env "DEFAULT_OPENAI_MODEL" "gpt-3.5-turbo"
    DEFAULT_ANTHROPIC_MODEL := getenvD env "DEFAULT_ANTHROPIC_MODEL" "claude-3-sonnet-20240229"
    DEBUG := strLower (getenvD env "DEBUG" "false") == "true"
    LOG_LEVEL := getenvD env "LOG_LEVEL" "INFO" }

/-- Message of the `ValueError` raised by `validate_api_keys` when both
provider keys are absent (`src/config/settings.py`, lines 51-54). -/
def msgMissingBoth : String :=
  "At least one of OPENAI_API_KEY or ANTHROPIC_API_KEY must be set. Please check your .env file."

/-- Message of the `ValueError` raised inside the `auto` branch of `get_llm`
when no key is found (`src/config/settings.py`, line 90). -/
def msgNoKeysAuto : String :=
  "No API keys found. Please set OPENAI_API_KEY or ANTHROPIC_API_KEY"

/-- Message of the `ValueError` raised by the openai branch of `get_llm`
when `OPENAI_API_KEY` is absent (`src/config/settings.py`, line 94). -/
def msgOpenaiMissing : String :=
  "OPENAI_API_KEY not found in environment variables"

/-- Message of the `ValueError` raised by the anthropic branch of `get_llm`
when `ANTHROPIC_API_KEY` is absent (`src/config/settings.py`, line 107). -/
def msgAnthropicMissing : String :=
  "ANTHROPIC_API_KEY not found in environment variables"

/-- Message of the `ValueError` raised by the final branch of `get_llm` for an
unrecognized provider token (`src/config/settings.py`, line 119):
`f"Unsupported provider: {provider}. Use \x27openai\x27 or \x27anthropic\x27"`. -/
def msgUnsupported (provider : String) : String :=
  "Unsupported provider: " ++ provider ++ ". Use \x27openai\x27 or \x27anthropic\x27"

/-- Modelled from the spec: the §7 error taxonomy names `MissingCredentialsError`
for "no usable provider key".  This classifier says which concrete `ValueError`
messages of the code denote that error: the two upfront-validation messages and
the two per-provider missing-key messages. -/
def PyExc.isMissingCredentials : PyExc → Bool
  | .valueError m =>
      m == msgMissingBoth || m == msgNoKeysAuto ||
      m == msgOpenaiMissing || m == msgAnthropicMissing
  | .attributeError _ => false

/-- Modelled from the spec: the §7 error taxonomy names `UnsupportedProviderError`
for "unrecognized provider token".  In the code this is the `ValueError` whose
message begins with the 22 characters "Unsupported provider: ". -/
def PyExc.isUnsupportedProvider : PyExc → Bool
  | .valueError m => strTakeChars m 22 == "Unsupported provider: "
  | .attributeError _ => false

/-- The method `Settings.validate_api_keys` (`src/config/settings.py`,
lines 37-56): builds the status dict (modelled as an association list in the
source insertion order), raises `ValueError` when both provider keys are
absent, and otherwise returns the status dict. -/
def Settings.validate_api_keys (s : Settings) : Except PyExc (List (String × Bool)) :=
  let status : List (String × Bool) :=
    [("openai", truthy s.OPENAI_API_KEY),
     ("anthropic", truthy s.ANTHROPIC_API_KEY),
     ("langsmith", truthy s.LANGCHAIN_API_KEY)]
  if !truthy s.OPENAI_API_KEY && !truthy s.ANTHROPIC_API_KEY then
    .error (PyExc.valueError msgMissingBoth)
  else
    .ok status

/-- Python `model or default` where `model : Optional[str]`: the default is
taken when `model` is `None` or the empty string (both falsy). -/
def pyOr (model : Option String) (dflt : String) : String :=
  match model with
  | none => dflt
  | some v => if v == "" then dflt else v

/-- The chat-model client value constructed by `get_llm`: `ChatOpenAI(...)`
or `ChatAnthropic(...)`, recording the constructor arguments verbatim
(`api_key`, `model`, and the forwarded `**kwargs`). -/
inductive Client where
  | chatOpenAI (api_key : Option String) (model : String) (kwargs : List (String × String))
  | chatAnthropic (api_key : Option String) (model : String) (kwargs : List (String × String))
deriving DecidableEq, Repr

/-- The provider a constructed client belongs to. -/
def Client.providerName : Client → String
  | .chatOpenAI _ _ _ => "openai"
  | .chatAnthropic _ _ _ => "anthropic"

/-- The model identifier a constructed client was configured with. -/
def Client.modelName : Client → String
  | .chatOpenAI _ m _ => m
  | .chatAnthropic _ m _ => m

/-- The function `get_llm` (`src/config/settings.py`, lines 66-119).
It first runs `Settings.validate_api_keys()`; then, when the provider token is
exactly "auto", auto-selects "openai" if `OPENAI_API_KEY` is truthy, else
"anthropic" if `ANTHROPIC_API_KEY` is truthy, else raises; then dispatches on
`provider.lower()`, raising when the matched provider key is absent and
otherwise constructing the client with `model or <default model>` and the
kwargs, and raising `Unsupported provider` for any other token. -/
def get_llm (s : Settings) (provider : String) (model : Option String)
    (kwargs : List (String × String)) : Except PyExc Client :=
  match Settings.validate_api_keys s with
  | .error e => .error e
  | .ok _ =>
    match (if provider == "auto" then
             (if truthy s.OPENAI_API_KEY then .ok "openai"
              else if truthy s.ANTHROPIC_API_KEY then .ok "anthropic"
              else .error (PyExc.valueError msgNoKeysAuto) : Except PyExc String)
           else .ok provider) with
    | .error e => .error e
    | .ok prov =>
      if strLower prov == "openai" then
        if !truthy s.OPENAI_API_KEY then
          .error (PyExc.valueError msgOpenaiMissing)
        else
          .ok (Client.chatOpenAI s.OPENAI_API_KEY (pyOr model s.DEFAULT_OPENAI_MODEL) kwargs)
      else if strLower prov == "anthropic" then
        if !truthy s.ANTHROPIC_API_KEY then
          .error (PyExc.valueError msgAnthropicMissing)
        else
          .ok (Client.chatAnthropic s.ANTHROPIC_API_KEY (pyOr model s.DEFAULT_ANTHROPIC_MODEL) kwargs)
      else
        .error (PyExc.valueError (msgUnsupported prov))

/-- The prompt `test_llm_connection` sends (`src/config/settings.py`, line 153). -/
def testPrompt : String :=
  "Hello! Please respond with just \x27OK\x27 to test the connection."

/-- The function `test_llm_connection` (`src/config/settings.py`, lines
142-160).  The body is one `try` block around `get_llm` and `llm.invoke(...)`
with a catch-all `except Exception` returning `False`; success returns `True`.
The external client behaviour (`llm.invoke`) is not part of this repository,
so it is a parameter: any function from the constructed client and the prompt
to a result or an exception. -/
def test_llm_connection (invoke : Client → String → Except PyExc String)
    (s : Settings) (provider : String) : Bool :=
  match get_llm s provider none [] with
  | .error _ => false
  | .ok llm =>
    match invoke llm testPrompt with
    | .error _ => false
    | .ok _ => true

/-- The upper-case logging-level attributes of the Python `logging` module,
with their numeric values, as consulted by
`getattr(logging, cls.LOG_LEVEL.upper())`. -/
def loggingLevels : List (String × Nat) :=
  [("CRITICAL", 50), ("FATAL", 50), ("ERROR", 40), ("WARN", 30),
   ("WARNING", 30), ("INFO", 20), ("DEBUG", 10), ("NOTSET", 0)]

/-- Python `getattr(logging, name)` restricted to the level attributes: names
that are not attributes of the `logging` module (e.g. "BANANA") raise
`AttributeError`. -/
def getattrLoggingLevel (name : String) : Except PyExc Nat :=
  match List.find? (fun p => p.1 == name) loggingLevels with
  | some p => .ok p.2
  | none =>
      .error (PyExc.attributeError
        ("module \x27logging\x27 has no attribute \x27" ++ name ++ "\x27"))

/-- The method `Settings.setup_logging` (`src/config/settings.py`, lines
58-64): `logging.basicConfig(level=getattr(logging, cls.LOG_LEVEL.upper()), ...)`.
The `getattr` raises `AttributeError` when the upper-cased `LOG_LEVEL` is not
an attribute of the `logging` module; otherwise configuration succeeds and the
numeric level is the one used. -/
def Settings.setup_logging (s : Settings) : Except PyExc Nat :=
  getattrLoggingLevel (strUpper s.LOG_LEVEL)

/-- Module initialization of `src/config/settings.py` (lines 162-163): the
`Settings` class body is evaluated over the environment, then
`Settings.setup_logging()` runs.  Import succeeds with the loaded snapshot
exactly when `setup_logging` does not raise. -/
def settingsOnImport (env : Env) : Except PyExc Settings :=
  match Settings.setup_logging (Settings.load env) with
  | .error e => .error e
  | .ok _ => .ok (Settings.load env)

/-- A snapshot with only the OpenAI key present, all other settings at their
documented defaults. -/
def snapOpenaiOnly : Settings :=
  { OPENAI_API_KEY := some "sk-x"
    ANTHROPIC_API_KEY := none
    LANGCHAIN_API_KEY := none
    LANGCHAIN_TRACING_V2 := false
    LANGCHAIN_PROJECT := "langchain-lab"
    DEFAULT_OPENAI_MODEL := "gpt-3.5-turbo"
    DEFAULT_ANTHROPIC_MODEL := "claude-3-sonnet-20240229"
    DEBUG := false
    LOG_LEVEL := "INFO" }

/-- A snapshot with only the Anthropic key present. -/
def snapAnthropicOnly : Settings :=
  { snapOpenaiOnly with OPENAI_API_KEY := none, ANTHROPIC_API_KEY := some "sk-a" }

/-- A snapshot with neither provider key present. -/
def snapNoKeys : Settings :=
  { snapOpenaiOnly with OPENAI_API_KEY := none }

/-- Every `Unsupported provider` message is classified as the spec's
`UnsupportedProviderError`, whatever the offending token was. -/
theorem isUnsupportedProvider_msgUnsupported (p : String) :
    PyExc.isUnsupportedProvider (PyExc.valueError (msgUnsupported p)) = true := by
  obtain ⟨pd⟩ := p
  show (strTakeChars (msgUnsupported ⟨pd⟩) 22 == "Unsupported provider: ") = true
  have h : (msgUnsupported ⟨pd⟩).data
      = ("Unsupported provider: ").data ++
        (pd ++ (". Use \x27openai\x27 or \x27anthropic\x27").data) := by
    simp [msgUnsupported]
  simp [strTakeChars, h]

/-- C1: resolving provider "auto" picks the openai client path when
`OPENAI_API_KEY` is truthy, else the anthropic client path when
`ANTHROPIC_API_KEY` is truthy, and fails otherwise (here: with the
missing-credentials error of the upfront validation); for a snapshot with
exactly one key present the resolved provider name is that provider,
deterministically. -/
theorem get_llm_auto_resolution (s : Settings) (m : Option String)
    (kw : List (String × String)) :
    (truthy s.OPENAI_API_KEY = true →
      get_llm s "auto" m kw =
        .ok (Client.chatOpenAI s.OPENAI_API_KEY (pyOr m s.DEFAULT_OPENAI_MODEL) kw)) ∧
    (truthy s.OPENAI_API_KEY = false → truthy s.ANTHROPIC_API_KEY = true →
      get_llm s "auto" m kw =
        .ok (Client.chatAnthropic s.ANTHROPIC_API_KEY (pyOr m s.DEFAULT_ANTHROPIC_MODEL) kw)) ∧
    (truthy s.OPENAI_API_KEY = false → truthy s.ANTHROPIC_API_KEY = false →
      get_llm s "auto" m kw = .error (PyExc.valueError msgMissingBoth)) ∧
    (truthy s.OPENAI_API_KEY = true → truthy s.ANTHROPIC_API_KEY = false →
      Except.map Client.providerName (get_llm s "auto" m kw) = .ok "openai") ∧
    (truthy s.OPENAI_API_KEY = false → truthy s.ANTHROPIC_API_KEY = true →
      Except.map Client.providerName (get_llm s "auto" m kw) = .ok "anthropic") := by
  cases ho : truthy s.OPENAI_API_KEY <;> cases ha : truthy s.ANTHROPIC_API_KEY <;>
    simp +decide [get_llm, Settings.validate_api_keys, ho, ha, Except.map, Client.providerName]

/-- C1 witness: on the concrete openai-only snapshot, `get_llm "auto"`
resolves to the openai client with the default model. -/
theorem get_llm_auto_resolution_witness :
    get_llm snapOpenaiOnly "auto" none [] =
      .ok (Client.chatOpenAI (some "sk-x") "gpt-3.5-turbo" []) ∧
    Except.map Client.providerName (get_llm snapOpenaiOnly "auto" none []) = .ok "openai" :=
  ⟨(get_llm_auto_resolution snapOpenaiOnly none []).1 rfl,
   (get_llm_auto_resolution snapOpenaiOnly none []).2.2.2.1 rfl rfl⟩

/-- C2 counterexample: on a snapshot with both provider keys absent,
`get_llm "carrot"` fails with the missing-credentials error raised by the
upfront `validate_api_keys()` call, not with an unsupported-provider error —
so "fails with UnsupportedProviderError for any snapshot" is false. -/
theorem get_llm_carrot_counterexample :
    get_llm snapNoKeys "carrot" none [] = .error (PyExc.valueError msgMissingBoth) ∧
    PyExc.isUnsupportedProvider (PyExc.valueError msgMissingBoth) = false ∧
    PyExc.isMissingCredentials (PyExc.valueError msgMissingBoth) = true :=
  ⟨rfl, rfl, rfl⟩

/-- C2 (amended): for every snapshot with at least one provider key present,
`get_llm` with a token that is not exactly "auto" and whose lower-casing is
neither "openai" nor "anthropic" (such as "carrot") fails with the
`Unsupported provider` error; with both keys absent, `get_llm` fails with the
missing-credentials error first. -/
theorem get_llm_unknown_provider (s : Settings) (p : String) (m : Option String)
    (kw : List (String × String))
    (hk : truthy s.OPENAI_API_KEY = true ∨ truthy s.ANTHROPIC_API_KEY = true)
    (hauto : (p == "auto") = false)
    (hoai : (strLower p == "openai") = false)
    (hant : (strLower p == "anthropic") = false) :
    get_llm s p m kw = .error (PyExc.valueError (msgUnsupported p)) ∧
    PyExc.isUnsupportedProvider (PyExc.valueError (msgUnsupported p)) = true := by
  refine ⟨?_, isUnsupportedProvider_msgUnsupported p⟩
  rcases hk with hk | hk <;>
    cases ho : truthy s.OPENAI_API_KEY <;> cases ha : truthy s.ANTHROPIC_API_KEY <;>
      simp_all [get_llm, Settings.validate_api_keys, hauto, hoai, hant]

/-- C2 witness: on the openai-only snapshot, `get_llm "carrot"` fails with
the unsupported-provider error. -/
theorem get_llm_unknown_provider_witness :
    get_llm snapOpenaiOnly "carrot" none [] =
      .error (PyExc.valueError (msgUnsupported "carrot")) ∧
    PyExc.isUnsupportedProvider (PyExc.valueError (msgUnsupported "carrot")) = true :=
  get_llm_unknown_provider snapOpenaiOnly "carrot" none [] (Or.inl rfl) rfl rfl rfl

/-- C3: `validate_api_keys` fails exactly when both `OPENAI_API_KEY` and
`ANTHROPIC_API_KEY` are absent (unset or empty); the only error it raises is
the missing-credentials one; and the tracing key (`LANGCHAIN_API_KEY`) never
influences whether it fails. -/
theorem validate_api_keys_fails_iff_both_absent (s : Settings) :
    (isOkE (Settings.validate_api_keys s) = false ↔
      truthy s.OPENAI_API_KEY = false ∧ truthy s.ANTHROPIC_API_KEY = false) ∧
    (∀ e, Settings.validate_api_keys s = .error e →
      e = PyExc.valueError msgMissingBoth ∧ PyExc.isMissingCredentials e = true) ∧
    (∀ k, isOkE (Settings.validate_api_keys { s with LANGCHAIN_API_KEY := k }) =
      isOkE (Settings.validate_api_keys s)) := by
  refine ⟨?_, ?_, ?_⟩
  · cases ho : truthy s.OPENAI_API_KEY <;> cases ha : truthy s.ANTHROPIC_API_KEY <;>
      simp [Settings.validate_api_keys, isOkE, ho, ha]
  · intro e he
    cases ho : truthy s.OPENAI_API_KEY <;> cases ha : truthy s.ANTHROPIC_API_KEY <;>
      simp [Settings.validate_api_keys, ho, ha] at he
    simp [← he, PyExc.isMissingCredentials]
  · intro k
    cases ho : truthy s.OPENAI_API_KEY <;> cases ha : truthy s.ANTHROPIC_API_KEY <;>
      simp [Settings.validate_api_keys, isOkE, ho, ha]

/-- C3 witness: on the no-keys snapshot, validation fails, and the error it
returns is the missing-credentials one. -/
theorem validate_api_keys_fails_iff_both_absent_witness :
    isOkE (Settings.validate_api_keys snapNoKeys) = false ∧
    PyExc.isMissingCredentials (PyExc.valueError msgMissingBoth) = true :=
  ⟨(validate_api_keys_fails_iff_both_absent snapNoKeys).1.mpr ⟨rfl, rfl⟩,
   ((validate_api_keys_fails_iff_both_absent snapNoKeys).2.1
     (PyExc.valueError msgMissingBoth) rfl).2⟩

/-- C4: `get_llm "openai"` with `OPENAI_API_KEY` absent fails with a
missing-credentials error (from upfront validation when both keys are
absent, from the openai branch otherwise); with the key present it resolves
to the openai client unconditionally — universally over the snapshot, hence
regardless of the anthropic key state; symmetrically for "anthropic". -/
theorem get_llm_explicit_provider (s : Settings) (m : Option String)
    (kw : List (String × String)) :
    (truthy s.OPENAI_API_KEY = false →
      ∃ e, get_llm s "openai" m kw = .error e ∧ PyExc.isMissingCredentials e = true) ∧
    (truthy s.OPENAI_API_KEY = true →
      get_llm s "openai" m kw =
        .ok (Client.chatOpenAI s.OPENAI_API_KEY (pyOr m s.DEFAULT_OPENAI_MODEL) kw)) ∧
    (truthy s.ANTHROPIC_API_KEY = false →
      ∃ e, get_llm s "anthropic" m kw = .error e ∧ PyExc.isMissingCredentials e = true) ∧
    (truthy s.ANTHROPIC_API_KEY = true →
      get_llm s "anthropic" m kw =
        .ok (Client.chatAnthropic s.ANTHROPIC_API_KEY (pyOr m s.DEFAULT_ANTHROPIC_MODEL) kw)) := by
  cases ho : truthy s.OPENAI_API_KEY <;> cases ha : truthy s.ANTHROPIC_API_KEY <;>
    simp +decide [get_llm, Settings.validate_api_keys, ho, ha, PyExc.isMissingCredentials]

/-- C4 witness: on the anthropic-only snapshot, `get_llm "openai"` fails with
a missing-credentials error, and `get_llm "anthropic"` returns the anthropic
client. -/
theorem get_llm_explicit_provider_witness :
    (∃ e, get_llm snapAnthropicOnly "openai" none [] = .error e ∧
      PyExc.isMissingCredentials e = true) ∧
    get_llm snapAnthropicOnly "anthropic" none [] =
      .ok (Client.chatAnthropic (some "sk-a") "claude-3-sonnet-20240229" []) :=
  ⟨(get_llm_explicit_provider snapAnthropicOnly none []).1 rfl,
   (get_llm_explicit_provider snapAnthropicOnly none []).2.2.2 rfl⟩

/-- C5 counterexample: on a snapshot with a provider key present,
`validate_api_keys` returns a status record whose third key is "langsmith",
not "tracing" — so "keys are exactly openai, anthropic, tracing" is false. -/
theorem validate_api_keys_status_keys_counterexample :
    Settings.validate_api_keys snapOpenaiOnly =
      .ok [("openai", true), ("anthropic", false), ("langsmith", false)] ∧
    ("langsmith" : String) ≠ "tracing" :=
  ⟨rfl, by decide⟩

/-- C5 (amended): for every snapshot with at least one provider key present,
`validate_api_keys` returns the status record with keys exactly "openai",
"anthropic" and "langsmith" (the tracing integration is keyed "langsmith"),
each mapped to the truthiness of the corresponding API key. -/
theorem validate_api_keys_status_record (s : Settings)
    (hk : truthy s.OPENAI_API_KEY = true ∨ truthy s.ANTHROPIC_API_KEY = true) :
    Settings.validate_api_keys s =
      .ok [("openai", truthy s.OPENAI_API_KEY),
           ("anthropic", truthy s.ANTHROPIC_API_KEY),
           ("langsmith", truthy s.LANGCHAIN_API_KEY)] := by
  rcases hk with hk | hk <;> simp [Settings.validate_api_keys, hk]

/-- C5 witness: the status record on the concrete openai-only snapshot. -/
theorem validate_api_keys_status_record_witness :
    Settings.validate_api_keys snapOpenaiOnly =
      .ok [("openai", true), ("anthropic", false), ("langsmith", false)] :=
  validate_api_keys_status_record snapOpenaiOnly (Or.inl rfl)

/-- C6 counterexample: an empty-string model override is a given override
that is not used — the constructed client carries the snapshot default model
"gpt-3.5-turbo", not the given "" — so "with a modelOverride given, it uses
the override" is false at the override "". -/
theorem get_llm_model_override_counterexample :
    get_llm snapOpenaiOnly "openai" (some "") [("temperature", "0.7")] =
      .ok (Client.chatOpenAI (some "sk-x") "gpt-3.5-turbo" [("temperature", "0.7")]) ∧
    ("gpt-3.5-turbo" : String) ≠ "" :=
  ⟨rfl, by decide⟩

/-- C6 (amended): with no model override the constructed client carries
exactly the snapshot's default model for the provider; a non-empty override
is used as given (an empty-string override falls back to the default); the
kwargs (e.g. temperature) are forwarded verbatim into the client. -/
theorem get_llm_model_selection (s : Settings) (v : String)
    (kw : List (String × String)) :
    (truthy s.OPENAI_API_KEY = true →
      get_llm s "openai" none kw =
        .ok (Client.chatOpenAI s.OPENAI_API_KEY s.DEFAULT_OPENAI_MODEL kw)) ∧
    (truthy s.OPENAI_API_KEY = true → (v == "") = false →
      get_llm s "openai" (some v) kw =
        .ok (Client.chatOpenAI s.OPENAI_API_KEY v kw)) ∧
    (truthy s.ANTHROPIC_API_KEY = true →
      get_llm s "anthropic" none kw =
        .ok (Client.chatAnthropic s.ANTHROPIC_API_KEY s.DEFAULT_ANTHROPIC_MODEL kw)) ∧
    (truthy s.ANTHROPIC_API_KEY = true → (v == "") = false →
      get_llm s "anthropic" (some v) kw =
        .ok (Client.chatAnthropic s.ANTHROPIC_API_KEY v kw)) := by
  cases ho : truthy s.OPENAI_API_KEY <;> cases ha : truthy s.ANTHROPIC_API_KEY <;>
    simp +decide [get_llm, Settings.validate_api_keys, ho, ha, pyOr]
  all_goals first
    | exact fun h h2 => absurd h2 h
    | exact ⟨fun h h2 => absurd h2 h, fun h h2 => absurd h2 h⟩

/-- C6 witness: the scenario of the spec — openai-only snapshot, no override,
temperature 0.7: the client carries the default model and the kwargs. -/
theorem get_llm_model_selection_witness :
    get_llm snapOpenaiOnly "openai" none [("temperature", "0.7")] =
      .ok (Client.chatOpenAI (some "sk-x") "gpt-3.5-turbo" [("temperature", "0.7")]) ∧
    get_llm snapOpenaiOnly "openai" (some "gpt-4") [("temperature", "0.7")] =
      .ok (Client.chatOpenAI (some "sk-x") "gpt-4" [("temperature", "0.7")]) :=
  ⟨(get_llm_model_selection snapOpenaiOnly "gpt-4" [("temperature", "0.7")]).1 rfl,
   (get_llm_model_selection snapOpenaiOnly "gpt-4" [("temperature", "0.7")]).2.1 rfl rfl⟩

/-- C7: `test_llm_connection` is a total Boolean-valued function (the
source's catch-all `except Exception` turns every failure into `False`): it
returns `true` exactly when client resolution succeeds and the resolved
client's invoke call succeeds, and `false` in every other case, for every
external invoke behaviour, snapshot and provider token. -/
theorem test_llm_connection_never_raises (invoke : Client → String → Except PyExc String)
    (s : Settings) (p : String) :
    (test_llm_connection invoke s p = true ∨ test_llm_connection invoke s p = false) ∧
    (test_llm_connection invoke s p = true ↔
      ∃ c r, get_llm s p none [] = .ok c ∧ invoke c testPrompt = .ok r) := by
  constructor
  · cases test_llm_connection invoke s p
    · exact Or.inr rfl
    · exact Or.inl rfl
  · unfold test_llm_connection
    cases hg : get_llm s p none [] with
    | error e => simp [hg]
    | ok c =>
      cases hi : invoke c testPrompt with
      | error e => simp [hg, hi]
      | ok r =>
        simp only [hg]
        constructor
        · intro _
          exact ⟨c, r, rfl, hi⟩
        · intro _
          simp [hi]

/-- C7 witness: with an invoke that always fails the result is `false`; with
one that always succeeds (on a snapshot with a key) it is `true`. -/
theorem test_llm_connection_never_raises_witness :
    test_llm_connection (fun _ _ => .error (PyExc.valueError "boom")) snapOpenaiOnly "auto"
      = false ∧
    test_llm_connection (fun _ _ => .ok "OK") snapOpenaiOnly "auto" = true := by
  constructor
  · have h := (test_llm_connection_never_raises
      (fun _ _ => .error (PyExc.valueError "boom")) snapOpenaiOnly "auto").2
    cases hb : test_llm_connection (fun _ _ => .error (PyExc.valueError "boom"))
        snapOpenaiOnly "auto"
    · rfl
    · obtain ⟨c, r, _, hr⟩ := h.mp hb
      exact absurd hr (by simp)
  · exact (test_llm_connection_never_raises
      (fun _ _ => .ok "OK") snapOpenaiOnly "auto").2.mpr
      ⟨Client.chatOpenAI (some "sk-x") "gpt-3.5-turbo" [], "OK", rfl, rfl⟩

/-- C8 counterexample: module import is not failure-free for every
environment — with `LOG_LEVEL=banana`, the `Settings` snapshot itself loads,
but the `setup_logging` call run at import does
`getattr(logging, "BANANA")`, which raises `AttributeError`. -/
theorem settings_import_counterexample :
    settingsOnImport [("LOG_LEVEL", "banana")] =
      .error (PyExc.attributeError
        "module \x27logging\x27 has no attribute \x27BANANA\x27") ∧
    Settings.load [("LOG_LEVEL", "banana")] =
      { snapNoKeys with LANGCHAIN_API_KEY := none, LOG_LEVEL := "banana" } :=
  ⟨rfl, by decide⟩

/-- C8 (amended): reading the environment into the `Settings` snapshot never
fails and represents missing variables as absent optionals or the documented
defaults (projectName "langchain-lab", tracing and debug false, log level
"INFO"); module import as a whole succeeds whenever `LOG_LEVEL` is unset
(the default "INFO" is a valid logging level), but can fail in
`setup_logging` when `LOG_LEVEL` is set to a non-level string. -/
theorem settings_load_defaults (env : Env) :
    (getenv env "OPENAI_API_KEY" = none → (Settings.load env).OPENAI_API_KEY = none) ∧
    (getenv env "ANTHROPIC_API_KEY" = none → (Settings.load env).ANTHROPIC_API_KEY = none) ∧
    (getenv env "LANGCHAIN_API_KEY" = none → (Settings.load env).LANGCHAIN_API_KEY = none) ∧
    (getenv env "LANGCHAIN_TRACING_V2" = none →
      (Settings.load env).LANGCHAIN_TRACING_V2 = false) ∧
    (getenv env "LANGCHAIN_PROJECT" = none →
      (Settings.load env).LANGCHAIN_PROJECT = "langchain-lab") ∧
    (getenv env "DEFAULT_OPENAI_MODEL" = none →
      (Settings.load env).DEFAULT_OPENAI_MODEL = "gpt-3.5-turbo") ∧
    (getenv env "DEFAULT_ANTHROPIC_MODEL" = none →
      (Settings.load env).DEFAULT_ANTHROPIC_MODEL = "claude-3-sonnet-20240229") ∧
    (getenv env "DEBUG" = none → (Settings.load env).DEBUG = false) ∧
    (getenv env "LOG_LEVEL" = none →
      (Settings.load env).LOG_LEVEL = "INFO" ∧
      settingsOnImport env = .ok (Settings.load env)) := by
  refine ⟨fun h => ?_, fun h => ?_, fun h => ?_, fun h => ?_, fun h => ?_,
    fun h => ?_, fun h => ?_, fun h => ?_, fun h => ?_⟩ <;>
    simp +decide [Settings.load, getenvD, h, settingsOnImport, Settings.setup_logging,
      getattrLoggingLevel, strLower, strUpper, loggingLevels]

/-- C8 witness: over the empty environment every variable is unset, the
snapshot carries all documented defaults, and module import succeeds. -/
theorem settings_load_defaults_witness :
    (Settings.load []).LANGCHAIN_PROJECT = "langchain-lab" ∧
    (Settings.load []).LANGCHAIN_TRACING_V2 = false ∧
    (Settings.load []).DEBUG = false ∧
    (Settings.load []).LOG_LEVEL = "INFO" ∧
    settingsOnImport [] = .ok (Settings.load []) :=
  ⟨(settings_load_defaults []).2.2.2.2.1 rfl,
   (settings_load_defaults []).2.2.2.1 rfl,
   (settings_load_defaults []).2.2.2.2.2.2.2.1 rfl,
   ((settings_load_defaults []).2.2.2.2.2.2.2.2 rfl).1,
   ((settings_load_defaults []).2.2.2.2.2.2.2.2 rfl).2⟩

/-- C9: explicit provider tokens are matched case-insensitively — with the
corresponding key present, "OpenAI"/"OPENAI" resolve exactly like "openai"
and "Anthropic"/"ANTHROPIC" like "anthropic" — whereas "auto" is recognized
only in exact lowercase: with only the anthropic key present, "AUTO" does
not auto-select but falls through to the unsupported-provider error. -/
theorem get_llm_case_handling (s : Settings) (m : Option String)
    (kw : List (String × String)) :
    (truthy s.OPENAI_API_KEY = true →
      get_llm s "OpenAI" m kw = get_llm s "openai" m kw ∧
      get_llm s "OPENAI" m kw = get_llm s "openai" m kw) ∧
    (truthy s.ANTHROPIC_API_KEY = true →
      get_llm s "Anthropic" m kw = get_llm s "anthropic" m kw ∧
      get_llm s "ANTHROPIC" m kw = get_llm s "anthropic" m kw) ∧
    (truthy s.OPENAI_API_KEY = false → truthy s.ANTHROPIC_API_KEY = true →
      get_llm s "AUTO" m kw = .error (PyExc.valueError (msgUnsupported "AUTO"))) := by
  cases ho : truthy s.OPENAI_API_KEY <;> cases ha : truthy s.ANTHROPIC_API_KEY <;>
    simp +decide [get_llm, Settings.validate_api_keys, ho, ha]

/-- C9 witness: on the openai-only snapshot, "OPENAI" resolves like
"openai"; on the anthropic-only snapshot, "AUTO" is rejected as an
unsupported provider. -/
theorem get_llm_case_handling_witness :
    get_llm snapOpenaiOnly "OPENAI" none [] = get_llm snapOpenaiOnly "openai" none [] ∧
    get_llm snapAnthropicOnly "AUTO" none [] =
      .error (PyExc.valueError (msgUnsupported "AUTO")) :=
  ⟨((get_llm_case_handling snapOpenaiOnly none []).1 rfl).2,
   (get_llm_case_handling snapAnthropicOnly none []).2.2 rfl rfl⟩

/-- C10: an empty-string model override is treated exactly like an absent
one — with the provider key present, `get_llm` with override "" equals
`get_llm` with no override, and the constructed client carries the
snapshot's default model for the provider, not the empty string. -/
theorem get_llm_empty_override (s : Settings) (kw : List (String × String)) :
    (truthy s.OPENAI_API_KEY = true →
      get_llm s "openai" (some "") kw = get_llm s "openai" none kw ∧
      get_llm s "openai" (some "") kw =
        .ok (Client.chatOpenAI s.OPENAI_API_KEY s.DEFAULT_OPENAI_MODEL kw)) ∧
    (truthy s.ANTHROPIC_API_KEY = true →
      get_llm s "anthropic" (some "") kw = get_llm s "anthropic" none kw ∧
      get_llm s "anthropic" (some "") kw =
        .ok (Client.chatAnthropic s.ANTHROPIC_API_KEY s.DEFAULT_ANTHROPIC_MODEL kw)) := by
  cases ho : truthy s.OPENAI_API_KEY <;> cases ha : truthy s.ANTHROPIC_API_KEY <;>
    simp +decide [get_llm, Settings.validate_api_keys, ho, ha, pyOr]

/-- C10 witness: on the openai-only snapshot, override "" yields the same
client as no override, carrying the default model. -/
theorem get_llm_empty_override_witness :
    get_llm snapOpenaiOnly "openai" (some "") [] =
      get_llm snapOpenaiOnly "openai" none [] ∧
    get_llm snapOpenaiOnly "openai" (some "") [] =
      .ok (Client.chatOpenAI (some "sk-x") "gpt-3.5-turbo" []) :=
  (get_llm_empty_override snapOpenaiOnly []).1 rfl
